import Mathlib

/-!
Verification of the tile-map explorer prototypes in this repository.

The repository contains several near-duplicate browser front-end variants:
a Telegram-hosted DOM-grid explorer (script.js), two canvas variants that
sample a reference image (NarutoWorldMap.jsx, three components), a
procedurally generated canvas map (LandingPageMap.jsx and the part_002
component), and an unbounded noise-based map (part_003).

Each variant is embedded shallowly below: React state becomes an explicit
state record, event handlers become state-transition functions, JavaScript
numbers become rationals (exact where the source only adds, multiplies and
compares) and 32-bit integer operations become naturals reduced mod 2^32.
Browser-supplied nondeterminism (the Math.random stream consulted by a page
load) is made explicit as a PageLoad argument, so that determinism across
page loads can be stated as independence from that argument.
-/

namespace WebappNaruto

/-! ## script.js — Telegram-hosted DOM-grid variant -/

namespace ScriptJs

/-- Component state of script.js: `player` and `offset` coordinate pairs
(`let player = { x: 7, y: 4 }; let offset = { x: 0, y: 0 };`). -/
structure State where
  playerX : ℤ
  playerY : ℤ
  offsetX : ℤ
  offsetY : ℤ
  deriving DecidableEq, Repr

/-- Initial state of script.js: player (7,4), offset (0,0). -/
def init : State := ⟨7, 4, 0, 0⟩

/-- Viewport dimensions: `const mapSize = { width: 15, height: 9 }`. -/
def mapWidth : ℤ := 15

/-- Viewport height of the DOM grid. -/
def mapHeight : ℤ := 9

/-- The `move(dx, dy)` function of script.js: the player coordinates are
incremented without any clamping, then the viewport offset is shifted by one
when the player is near an edge (the four sequential `if` statements). -/
def move (dx dy : ℤ) (s : State) : State :=
  let px := s.playerX + dx
  let py := s.playerY + dy
  let ox := if px - s.offsetX < 3 then s.offsetX - 1 else s.offsetX
  let ox := if px - ox > 11 then ox + 1 else ox
  let oy := if py - s.offsetY < 2 then s.offsetY - 1 else s.offsetY
  let oy := if py - oy > 6 then oy + 1 else oy
  ⟨px, py, ox, oy⟩

/-- The four movement buttons bound at the bottom of script.js
(`up`, `down`, `left`, `right` onclick handlers). -/
inductive Event where
  | up
  | down
  | left
  | right
  deriving DecidableEq, Repr

/-- Direction passed to `move` by each button binding:
up = (0,-1), down = (0,1), left = (-1,0), right = (1,0). -/
def eventDelta : Event → ℤ × ℤ
  | .up => (0, -1)
  | .down => (0, 1)
  | .left => (-1, 0)
  | .right => (1, 0)

/-- One button press: `move(dx, dy)` with the bound direction. -/
def step (s : State) (e : Event) : State :=
  move (eventDelta e).1 (eventDelta e).2 s

/-- Run a sequence of button presses from the initial state. -/
def run (evts : List Event) : State :=
  evts.foldl step init

/-- Region name list of `getRegion`. -/
def regionNames : List String := ["fire", "water", "wind", "lightning", "earth"]

/-- The `regionColors` lookup table of script.js. -/
def regionColors : List (String × String) :=
  [("fire", "#a33b16"), ("water", "#1b6dd1"), ("wind", "#d2b843"),
   ("lightning", "#a1a1f4"), ("earth", "#7c5b3f")]

/-- The `getRegion(x, y)` function:
`const seed = (x * 92821 + y * 1237) % 5;` (JavaScript `%` truncates toward
zero, i.e. `Int.tmod`) followed by indexing the five-name array at
`Math.abs(seed)`.  Out-of-range indexing would yield `undefined`, modelled by
`Option`. -/
def getRegion (x y : ℤ) : Option String :=
  regionNames.get? ((x * 92821 + y * 1237).tmod 5).natAbs

/-- Calls made by the program to the Telegram WebApp bridge object. -/
inductive TgCall where
  | expand
  | sendData (payload : String)
  | close
  deriving DecidableEq, Repr

/-- The bridge calls script.js performs at startup: lines 1–2 are
`const tg = window.Telegram.WebApp; tg.expand();` and this is the only
access to `tg` in the file. -/
def initBridgeCalls : List TgCall := [TgCall.expand]

/-- The bridge calls performed by a button press: the handlers only call
`move`, which updates the coordinates and re-renders the DOM grid; no member
of `tg` is touched. -/
def eventBridgeCalls (_ : Event) : List TgCall := []

/-- Whether a bridge call sends a payload or closes the view. -/
def isSendOrClose : TgCall → Bool
  | .sendData _ => true
  | .close => true
  | .expand => false

end ScriptJs

/-! ## Clamped player movement shared by the canvas variants

Every canvas variant except part_003 moves the player with the same pattern
`nx = Math.max(0, Math.min(SIZE - 1, p.x + dx))` (and likewise for y):
`move` in NarutoWorldMap.jsx (GRID_SIZE 1000), `doMove` in the two 500-grid
components, `move` in the part_001 component (GRID_SIZE 500), `move` in
LandingPageMap.jsx (MAP_SIZE 500), `move` in part_002 (mapW 80, mapH 60 via
`clamp`) and `movePlayer` in the 50x50 component.  The early
`if (nx === p.x && ny === p.y) return p;` in some variants returns an equal
state and so does not change the transition function. -/

namespace Clamped

/-- One clamped move on a `w` by `h` grid:
`(max 0 (min (w-1) (x+dx)), max 0 (min (h-1) (y+dy)))`. -/
def move (w h : ℤ) (p d : ℤ × ℤ) : ℤ × ℤ :=
  (max 0 (min (w - 1) (p.1 + d.1)), max 0 (min (h - 1) (p.2 + d.2)))

/-- Fold a sequence of move deltas from a start position. -/
def run (w h : ℤ) (start : ℤ × ℤ) (moves : List (ℤ × ℤ)) : ℤ × ℤ :=
  moves.foldl (move w h) start

/-- The position lies inside the `w` by `h` grid. -/
def InBounds (w h : ℤ) (p : ℤ × ℤ) : Prop :=
  0 ≤ p.1 ∧ p.1 ≤ w - 1 ∧ 0 ≤ p.2 ∧ p.2 ≤ h - 1

instance (w h : ℤ) (p : ℤ × ℤ) : Decidable (InBounds w h p) := by
  unfold InBounds; infer_instance

end Clamped

/-! ## part_003 — unbounded noise-based map -/

namespace Part003

/-- Component state of part_003: `player` position and `zoom`. -/
structure State where
  playerX : ℤ
  playerY : ℤ
  zoom : ℚ
  deriving DecidableEq, Repr

/-- Initial state: player (500, 500), zoom 1. -/
def init : State := ⟨500, 500, 1⟩

/-- The keys handled by `onKey` in part_003 (arrow keys are aliases of the
letter keys after lower-casing). -/
inductive Key where
  | w
  | s
  | a
  | d
  | plus
  | minus
  deriving DecidableEq, Repr

/-- The `onKey` handler of part_003: movement keys shift the player by two
tiles with no clamping, `+` and `-` adjust zoom within [0.5, 4]. -/
def onKey (st : State) : Key → State
  | .w => { st with playerY := st.playerY - 2 }
  | .s => { st with playerY := st.playerY + 2 }
  | .a => { st with playerX := st.playerX - 2 }
  | .d => { st with playerX := st.playerX + 2 }
  | .plus => { st with zoom := min 4 (st.zoom + 0.1) }
  | .minus => { st with zoom := max 0.5 (st.zoom - 0.1) }

/-- Run a sequence of key presses from the initial state. -/
def run (ks : List Key) : State :=
  ks.foldl onKey init

end Part003

/-! ## Browser nondeterminism and the mulberry32 generator -/

/-- The nondeterminism a page load supplies to the scripts: the stream of
values produced by successive `Math.random()` calls.  A generator is
deterministic across page loads exactly when its output does not depend on
this argument. -/
structure PageLoad where
  mathRandom : Nat → ℚ

/-- One step of the `mulberry32` generator used by LandingPageMap.jsx and
part_002.  The closure state `a` is the exact JavaScript number (it is only
ever reduced mod 2^32 when fed to a bitwise operator), and the body

  `var t = (a += 0x6d2b79f5);`
  `t = Math.imul(t ^ (t >>> 15), t | 1);`
  `t ^= t + Math.imul(t ^ (t >>> 7), t | 61);`
  `return ((t ^ (t >>> 14)) >>> 0) / 4294967296;`

is modelled on the 32-bit patterns: `Math.imul` is multiplication mod 2^32,
`^` `|` `>>>` act on the pattern, and the signed addition `t + Math.imul …`
agrees with pattern addition mod 2^32. -/
def mulberry32Step (a : Nat) : Nat × ℚ :=
  let a' := a + 0x6d2b79f5
  let t0 := a' % 4294967296
  let t1 := ((t0 ^^^ (t0 >>> 15)) * (t0 ||| 1)) % 4294967296
  let t2 := t1 ^^^ ((t1 + ((t1 ^^^ (t1 >>> 7)) * (t1 ||| 61)) % 4294967296) % 4294967296)
  let t3 := t2 ^^^ (t2 >>> 14)
  (a', (t3 : ℚ) / 4294967296)

/-! ## LandingPageMap.jsx — seeded procedural map, 500 x 500 -/

namespace LandingPage

/-- Map size: `const MAP_SIZE = 500`. -/
def MAP_SIZE : Nat := 500

/-- Tile type chosen from one noise sample in `generateMap`:
`if (noise < 0.1) water; else if (< 0.2) sand; else if (< 0.4) forest;
else if (< 0.6) mountain; else if (> 0.95) snow;` with default grass. -/
def tileType (noise : ℚ) : String :=
  if noise < 0.1 then "water"
  else if noise < 0.2 then "sand"
  else if noise < 0.4 then "forest"
  else if noise < 0.6 then "mountain"
  else if noise > 0.95 then "snow"
  else "grass"

/-- One row of the generated map: `n` successive `rng()` draws mapped
through `tileType`, threading the generator state. -/
def genRow (rng : Nat) : Nat → Nat × List String
  | 0 => (rng, [])
  | n + 1 =>
    let (rng1, v) := mulberry32Step rng
    let (rng2, rest) := genRow rng1 n
    (rng2, tileType v :: rest)

/-- The rows of the generated map, threading the generator state row by
row (the source fills `map[y][x]` for y outer, x inner). -/
def genRows (w : Nat) (rng : Nat) : Nat → Nat × List (List String)
  | 0 => (rng, [])
  | n + 1 =>
    let (rng1, row) := genRow rng w
    let (rng2, rest) := genRows w rng1 n
    (rng2, row :: rest)

/-- The `generateMap(size)` function of LandingPageMap.jsx: a fresh
`mulberry32(12345)` stream consumed cell by cell.  The page-load argument
records that the source never consults `Math.random` here. -/
def generateMap (size : Nat) (_ : PageLoad) : List (List String) :=
  (genRows size 12345 size).2

/-- Component state of LandingPageMap.jsx: `player`, `zoom` and the
once-generated `mapData` (`useState(() => generateMap(MAP_SIZE))`). -/
structure State where
  player : ℤ × ℤ
  zoom : ℚ
  mapData : List (List String)
  deriving DecidableEq, Repr

/-- Initial state: player (250, 250), zoom 1, the generated map. -/
def init (pl : PageLoad) : State :=
  ⟨(250, 250), 1, generateMap MAP_SIZE pl⟩

/-- The keyboard events handled by `onKey` in LandingPageMap.jsx. -/
inductive Event where
  | up
  | down
  | left
  | right
  | plus
  | minus
  deriving DecidableEq, Repr

/-- One `onKey` dispatch: the movement keys call
`move(dx, dy)` = clamped move on the 500 grid, `+` and `-` set
`zoom` to `Math.min(4, z + 0.1)` / `Math.max(0.5, z - 0.1)`. -/
def step (s : State) : Event → State
  | .up => { s with player := Clamped.move 500 500 s.player (0, -1) }
  | .down => { s with player := Clamped.move 500 500 s.player (0, 1) }
  | .left => { s with player := Clamped.move 500 500 s.player (-1, 0) }
  | .right => { s with player := Clamped.move 500 500 s.player (1, 0) }
  | .plus => { s with zoom := min 4 (s.zoom + 0.1) }
  | .minus => { s with zoom := max 0.5 (s.zoom - 0.1) }

/-- Run a sequence of keyboard events from the initial state. -/
def run (pl : PageLoad) (evts : List Event) : State :=
  evts.foldl step (init pl)

end LandingPage

/-! ## The 50 x 50 DOM-tile component at the end of NarutoWorldMap.jsx -/

namespace Page50

/-- Map size: `const MAP_SIZE = 50`. -/
def MAP_SIZE : Nat := 50

/-- One tile of the 50x50 component's `generateMap`:
`const noise = Math.sin(x * 0.15) + Math.cos(y * 0.1)` followed by the
threshold chain.  `Math.sin` and `Math.cos` are fixed pure functions, passed
in as the parameters `sinF` and `cosF`. -/
def biomeAt (sinF cosF : ℚ → ℚ) (x y : Nat) : String :=
  let noise := sinF ((x : ℚ) * 0.15) + cosF ((y : ℚ) * 0.1)
  if noise > 1 then "snow"
  else if noise > 0.5 then "mountain"
  else if noise > 0.1 then "forest"
  else if noise > -0.3 then "grass"
  else if noise > -0.8 then "sand"
  else "water"

/-- The `generateMap` of the 50x50 component: a 50x50 grid of `biomeAt`
values (y outer, x inner, as in the nested `Array.from`). -/
def generateMap (sinF cosF : ℚ → ℚ) : List (List String) :=
  (List.range MAP_SIZE).map fun y =>
    (List.range MAP_SIZE).map fun x => biomeAt sinF cosF x y

/-- Component state: `player` and the once-generated `mapData`
(`useState(generateMap)`). -/
structure State where
  player : ℤ × ℤ
  mapData : List (List String)
  deriving DecidableEq, Repr

/-- Initial state: player (25, 25) and the generated map. -/
def init (sinF cosF : ℚ → ℚ) : State :=
  ⟨(25, 25), generateMap sinF cosF⟩

/-- The `movePlayer(dx, dy)` handler: clamped move on the 50 grid; nothing
else in the component writes state. -/
def movePlayer (d : ℤ × ℤ) (s : State) : State :=
  { s with player := Clamped.move 50 50 s.player d }

/-- Run a sequence of `movePlayer` calls from the initial state. -/
def run (sinF cosF : ℚ → ℚ) (moves : List (ℤ × ℤ)) : State :=
  moves.foldl (fun s d => movePlayer d s) (init sinF cosF)

end Page50

/-! ## part_002 — seeded blob-based procedural map, 80 x 60

The `generateMap(w, h)` of part_002 seeds `mulberry32(1337)`, draws the
elevation and moisture grids, places 12 region centers, disturbs the grids
with blobs and finally assigns a tile record per cell.  `Math.sqrt` and
`Math.hypot` are fixed pure functions, passed in as parameters. -/

namespace Part002

/-- Read grid cell `[y][x]` (grids are lists of rows). -/
def getCell (g : List (List ℚ)) (y x : Nat) : ℚ :=
  (g.getD y []).getD x 0

/-- Write grid cell `[y][x]`. -/
def setCell (g : List (List ℚ)) (y x : Nat) (v : ℚ) : List (List ℚ) :=
  g.set y ((g.getD y []).set x v)

/-- A row of `n` raw `rng()` draws (`rng() * 1` in the source). -/
def drawRow (rng : Nat) : Nat → Nat × List ℚ
  | 0 => (rng, [])
  | n + 1 =>
    let (rng1, v) := mulberry32Step rng
    let (rng2, rest) := drawRow rng1 n
    (rng2, v :: rest)

/-- A grid of `rows` rows of `w` raw draws, threading the generator state
(the nested `Array.from` evaluates row by row). -/
def drawGrid (w : Nat) (rng : Nat) : Nat → Nat × List (List ℚ)
  | 0 => (rng, [])
  | n + 1 =>
    let (rng1, row) := drawRow rng w
    let (rng2, rest) := drawGrid w rng1 n
    (rng2, row :: rest)

/-- A region center pushed by the `for (let i = 0; i < 12; i++)` loop. -/
structure RegionPt where
  x : ℤ
  y : ℤ
  name : String
  deriving DecidableEq, Repr

/-- The `regionNames` array of part_002. -/
def regionNames : List String :=
  ["Land of Fire", "Land of Water", "Land of Wind", "Land of Earth",
   "Land of Lightning", "Land of Rivers", "Land of Snow"]

/-- Generate `n` region centers starting at loop index `i`:
`x: Math.floor(rng() * w), y: Math.floor(rng() * h),
name: regionNames[i % regionNames.length]`. -/
def genRegionsFrom (w h : Nat) (rng : Nat) (i : Nat) : Nat → Nat × List RegionPt
  | 0 => (rng, [])
  | n + 1 =>
    let (r1, vx) := mulberry32Step rng
    let (r2, vy) := mulberry32Step r1
    let pt : RegionPt := ⟨⌊vx * (w : ℚ)⌋, ⌊vy * (h : ℚ)⌋,
      regionNames.getD (i % regionNames.length) ""⟩
    let (r3, rest) := genRegionsFrom w h r2 (i + 1) n
    (r3, pt :: rest)

/-- The inclusive integer range `-radius … radius` of the blob loops. -/
def offsets (radius : ℤ) : List ℤ :=
  (List.range (2 * radius + 1).toNat).map fun i => -radius + (i : ℤ)

/-- One cell of the blob-disturbance loop body.  Out-of-bounds cells are
skipped before any `rng()` draw (the `continue`); otherwise
`d = Math.sqrt(dx*dx + dy*dy) / radius`, `fall = Math.max(0, 1 - d)`, and
the elevation then the moisture cell receive one draw each. -/
def blobCell (w h : Nat) (sq : ℚ → ℚ) (r : RegionPt) (radius : ℤ)
    (acc : Nat × List (List ℚ) × List (List ℚ)) (dy dx : ℤ) :
    Nat × List (List ℚ) × List (List ℚ) :=
  let (rng, elev, moist) := acc
  let x := r.x + dx
  let y := r.y + dy
  if x < 0 ∨ x ≥ (w : ℤ) ∨ y < 0 ∨ y ≥ (h : ℤ) then acc
  else
    let d := sq ((dx * dx + dy * dy : ℤ) : ℚ) / (radius : ℚ)
    let fall := max 0 (1 - d)
    let (rng1, v1) := mulberry32Step rng
    let elev' := setCell elev y.toNat x.toNat
      (getCell elev y.toNat x.toNat + (0.2 + v1 * 0.6) * fall)
    let (rng2, v2) := mulberry32Step rng1
    let moist' := setCell moist y.toNat x.toNat
      (getCell moist y.toNat x.toNat + (0.1 + v2 * 0.8) * fall)
    (rng2, elev', moist')

/-- The blob disturbance for one region:
`const radius = Math.floor(6 + rng() * 12)` then the dy/dx double loop. -/
def blobRegion (w h : Nat) (sq : ℚ → ℚ)
    (acc : Nat × List (List ℚ) × List (List ℚ)) (r : RegionPt) :
    Nat × List (List ℚ) × List (List ℚ) :=
  let (rng, elev, moist) := acc
  let (rng1, rv) := mulberry32Step rng
  let radius : ℤ := ⌊(6 : ℚ) + rv * 12⌋
  (offsets radius).foldl
    (fun a dy => (offsets radius).foldl
      (fun a2 dx => blobCell w h sq r radius a2 dy dx) a)
    (rng1, elev, moist)

/-- The `clamp(v, a, b)` utility of part_002. -/
def clamp (v a b : ℚ) : ℚ := max a (min b v)

/-- One tile record `{ type, elevation, moisture, region }`. -/
structure Tile where
  type : String
  elevation : ℚ
  moisture : ℚ
  region : String
  deriving DecidableEq, Repr

/-- The per-cell assignment in the final double loop of `generateMap`:
threshold chain on the clamped elevation and moisture, the snow override,
and the nearest-region search with `Math.hypot` (strict `<`, so the first
of equally near regions wins). -/
def assignTile (hypot : ℚ → ℚ → ℚ) (h : Nat) (regions : List RegionPt)
    (elev moist : List (List ℚ)) (y x : Nat) : Tile :=
  let e := clamp (getCell elev y x) 0 1
  let m := clamp (getCell moist y x) 0 1
  let type1 :=
    if e < 0.2 ∧ m > 0.3 then "water"
    else if e < 0.25 then "sand"
    else if e > 0.75 then "mountain"
    else if e > 0.6 ∧ m > 0.4 then "forest"
    else "grass"
  let type2 := if e > 0.85 ∧ (y : ℚ) < (h : ℚ) * 0.2 then "snow" else type1
  let best := regions.foldl
    (fun best r =>
      let d := hypot ((r.x : ℚ) - (x : ℚ)) ((r.y : ℚ) - (y : ℚ))
      match best with
      | none => some (d, r)
      | some (bd, br) => if d < bd then some (d, r) else some (bd, br))
    (none : Option (ℚ × RegionPt))
  let region :=
    match best with
    | some (bd, br) => br.name ++ (if bd < 8 then " •" else "")
    | none => ""
  ⟨type2, e, m, region⟩

/-- The `generateMap(w, h)` of part_002, with `Math.sqrt` and `Math.hypot`
as the fixed pure parameters `sq` and `hypot`.  The page-load argument
records that the source never consults `Math.random` here (all randomness
comes from `mulberry32(1337)`). -/
def generateMap (w h : Nat) (sq : ℚ → ℚ) (hypot : ℚ → ℚ → ℚ)
    (_ : PageLoad) : List (List Tile) :=
  let (r1, elev) := drawGrid w 1337 h
  let (r2, moist) := drawGrid w r1 h
  let (r3, regions) := genRegionsFrom w h r2 0 12
  let (_, elevF, moistF) :=
    regions.foldl (blobRegion w h sq) (r3, elev, moist)
  (List.range h).map fun y =>
    (List.range w).map fun x => assignTile hypot h regions elevF moistF y x

end Part002

/-! ## NarutoWorldMap.jsx — image-sampled viewport variants (GRID_SIZE 500)

The two 500-grid components (the polygon-HUD component and the timed-HUD
component, the latter repeated in part_001) share the constants, the
source-rectangle computation of `drawAll`, the zoom handlers and the region
machinery modelled here. -/

namespace WorldMap

/-- Grid size of the 500-grid components: `const GRID_SIZE = 500`. -/
def GRID_SIZE : ℚ := 500

/-- Base tile display size: `const BASE_TILE_PX = 6`. -/
def BASE_TILE_PX : ℚ := 6

/-- Minimum zoom: `const MIN_ZOOM = 0.3`. -/
def MIN_ZOOM : ℚ := 0.3

/-- Maximum zoom: `const MAX_ZOOM = 4`. -/
def MAX_ZOOM : ℚ := 4

/-- Image pixels per logical tile: `img.width / GRID_SIZE` (likewise for
the vertical axis with `img.height`). -/
def pxPerTile (imgW : ℚ) : ℚ := imgW / GRID_SIZE

/-- Source-rectangle width in image pixels:
`srcW = (vw / (BASE_TILE_PX * z)) * pxPerTileX`. -/
def srcW (vw z imgW : ℚ) : ℚ :=
  (vw / (BASE_TILE_PX * z)) * pxPerTile imgW

/-- The unclamped source-rectangle origin:
`Math.round(centerImgX - srcW / 2)` with
`centerImgX = (p.x + 0.5) * pxPerTileX`. -/
def srcRaw (p vw z imgW : ℚ) : ℚ :=
  ((round ((p + 0.5) * pxPerTile imgW - srcW vw z imgW / 2) : ℤ) : ℚ)

/-- The clamping chain of `drawAll`:
`if (srcX < 0) srcX = 0;`
`if (srcX + srcW > img.width) srcX = Math.max(0, img.width - srcW);`
(identical for the y axis with `img.height`). -/
def clampSrc (srcX srcW imgW : ℚ) : ℚ :=
  let s1 := if srcX < 0 then 0 else srcX
  if s1 + srcW > imgW then max 0 (imgW - srcW) else s1

/-- The final source-rectangle x origin computed by `drawAll`. -/
def srcX (p vw z imgW : ℚ) : ℚ :=
  clampSrc (srcRaw p vw z imgW) (srcW vw z imgW) imgW

/-- JavaScript `+(q).toFixed(2)`: rounding to two decimal places. -/
def toFixed2 (q : ℚ) : ℚ := ((round (q * 100) : ℤ) : ℚ) / 100

/-- JavaScript `+(q).toFixed(3)`: rounding to three decimal places. -/
def toFixed3 (q : ℚ) : ℚ := ((round (q * 1000) : ℤ) : ℚ) / 1000

/-- The zoom-changing operations of the 500-grid components: the `+`/`-`
keys and the two zoom buttons step by 0.25 (rounded via `toFixed(2)`), the
wheel handler adds `-deltaY * 0.0015` (rounded via `toFixed(3)`); all clamp
into [MIN_ZOOM, MAX_ZOOM]. -/
inductive ZoomEvent where
  | keyPlus
  | keyMinus
  | wheel (deltaY : ℚ)
  | btnPlus
  | btnMinus
  deriving DecidableEq, Repr

/-- One zoom update, as in `onDown`/`onKeyDown` (`Math.min(MAX_ZOOM,
+(z + 0.25).toFixed(2))`, `Math.max(MIN_ZOOM, +(z - 0.25).toFixed(2))`),
the wheel handlers (`Math.max(MIN_ZOOM, Math.min(MAX_ZOOM,
+(z + delta).toFixed(3)))` with `delta = -deltaY * 0.0015`) and the zoom
buttons (same as the keys). -/
def zoomStep (z : ℚ) : ZoomEvent → ℚ
  | .keyPlus => min MAX_ZOOM (toFixed2 (z + 0.25))
  | .keyMinus => max MIN_ZOOM (toFixed2 (z - 0.25))
  | .wheel deltaY =>
    let delta := -deltaY * 0.0015
    max MIN_ZOOM (min MAX_ZOOM (toFixed3 (z + delta)))
  | .btnPlus => min MAX_ZOOM (toFixed2 (z + 0.25))
  | .btnMinus => max MIN_ZOOM (toFixed2 (z - 0.25))

/-- Fold a sequence of zoom events from the initial zoom
(`useState(1)`). -/
def zoomRun (evts : List ZoomEvent) : ℚ :=
  evts.foldl zoomStep 1

/-- One polygonal region of the `REGIONS` list (the `color` string is kept
for fidelity; it plays no role in region lookup). -/
structure Region where
  id : String
  name : String
  color : String
  poly : List (ℚ × ℚ)
  deriving DecidableEq, Repr

/-- Region `land_fire` of the REGIONS list. -/
def landFire : Region :=
  ⟨"land_fire", "Land of Fire", "rgba(230,130,90,0.06)",
   [(170, 240), (260, 260), (320, 300), (300, 380), (220, 380), (180, 330),
    (160, 280)]⟩

/-- Region `land_wind` of the REGIONS list. -/
def landWind : Region :=
  ⟨"land_wind", "Land of Wind", "rgba(220,170,70,0.06)",
   [(10, 320), (110, 320), (120, 400), (20, 440)]⟩

/-- Region `land_water` of the REGIONS list. -/
def landWater : Region :=
  ⟨"land_water", "Land of Water", "rgba(80,150,200,0.05)",
   [(330, 40), (420, 40), (480, 100), (480, 220), (380, 260), (340, 180)]⟩

/-- Region `land_earth` of the REGIONS list. -/
def landEarth : Region :=
  ⟨"land_earth", "Land of Earth", "rgba(200,160,110,0.05)",
   [(90, 40), (170, 40), (200, 110), (140, 180), (100, 140)]⟩

/-- Region `land_lightning` of the REGIONS list. -/
def landLightning : Region :=
  ⟨"land_lightning", "Land of Lightning", "rgba(220,230,255,0.05)",
   [(370, 10), (460, 10), (490, 70), (420, 120), (370, 80)]⟩

/-- Region `land_snow` of the REGIONS list. -/
def landSnow : Region :=
  ⟨"land_snow", "Land of Snow", "rgba(245,245,255,0.06)",
   [(320, 0), (380, 0), (400, 30), (340, 50)]⟩

/-- The `REGIONS` list, identical in both 500-grid components. -/
def REGIONS : List Region :=
  [landFire, landWind, landWater, landEarth, landLightning, landSnow]

/-- One edge test of the ray-casting loop: the crossing condition
`(yi > py) !== (yj > py) && px < ((xj - xi) * (py - yi)) / (yj - yi) + xi`.
When `yi = yj` the first conjunct is false, so the rational convention
`x / 0 = 0` never affects the result, matching the short-circuit in the
source. -/
def pipEdge (px py xi yi xj yj : ℚ) : Bool :=
  (decide (yi > py) != decide (yj > py)) &&
    decide (px < ((xj - xi) * (py - yi)) / (yj - yi) + xi)

/-- The `pointInPoly(px, py, poly)` function: ray casting over the edges
`(i, j)` with `j` the previous index (starting from the closing edge
`(0, poly.length - 1)`), toggling `inside` at each crossing. -/
def pointInPoly (px py : ℚ) (poly : List (ℚ × ℚ)) : Bool :=
  (List.range poly.length).foldl
    (fun inside i =>
      let vi := poly.getD i (0, 0)
      let vj := poly.getD (if i = 0 then poly.length - 1 else i - 1) (0, 0)
      if pipEdge px py vi.1 vi.2 vj.1 vj.2 then !inside else inside)
    false

/-- The first-match loop of `findRegionAt` in the timed-HUD component:
`for (let r of REGIONS) if (pointInPoly(tileX, tileY, r.poly)) return r;
return null;`. -/
def findLoop (tileX tileY : ℚ) : List Region → Option Region
  | [] => none
  | r :: rest =>
    if pointInPoly tileX tileY r.poly then some r
    else findLoop tileX tileY rest

/-- `findRegionAt(tileX, tileY)` of the timed-HUD component. -/
def findRegionAt (tileX tileY : ℚ) : Option Region :=
  findLoop tileX tileY REGIONS

/-- The `updateRegion(p)` of the polygon-HUD component:
`const r = REGIONS.find(r => pointInPoly(p.x, p.y, r.poly));
setRegionName(r ? r.name : "Unknown Region");` — this is the region name
the component displays. -/
def updateRegion (p : ℚ × ℚ) : String :=
  match REGIONS.find? (fun r => pointInPoly p.1 p.2 r.poly) with
  | some r => r.name
  | none => "Unknown Region"

/-- The name set by `updateRegionName(p)` of the timed-HUD component:
`const r = findRegionAt(p.x, p.y); if (r) setRegionName(r.name); …
else setRegionName("")` (the 2.5-second timer later blanks a shown name;
modelled here is the value set on the update itself). -/
def updateRegionName (p : ℚ × ℚ) : String :=
  match findRegionAt p.1 p.2 with
  | some r => r.name
  | none => ""

/-- The component state touched by the image-loading effect. -/
structure LoadState where
  loaded : Bool
  player : ℤ × ℤ
  zoom : ℚ
  deriving DecidableEq, Repr

/-- Observable browser effects an image handler can perform. -/
inductive BrowserAction where
  | consoleError (msg : String)
  | imageLoadRequest (src : String)
  deriving DecidableEq, Repr

/-- The `img.onerror` handler of the 1000-grid component:
`console.error("Failed to load image", e)` and nothing else. -/
def imgOnError1000 (s : LoadState) : LoadState × List BrowserAction :=
  (s, [BrowserAction.consoleError "Failed to load image"])

/-- The `img.onerror` handler of the timed-HUD 500-grid component:
`console.error("image load failed", e)` and nothing else. -/
def imgOnErrorHud (s : LoadState) : LoadState × List BrowserAction :=
  (s, [BrowserAction.consoleError "image load failed"])

/-- The `img.onerror` handler of the hold-to-move component in part_001:
`console.error("Failed to load map image:", e)` and nothing else. -/
def imgOnErrorHold (s : LoadState) : LoadState × List BrowserAction :=
  (s, [BrowserAction.consoleError "Failed to load map image:"])

end WorldMap

/-- The viewport-relative window the edge-shift logic of script.js keeps the
player in: x within [3, 11] and y within [2, 6] of the offset. -/
def ScriptJs.Window (s : ScriptJs.State) : Prop :=
  3 ≤ s.playerX - s.offsetX ∧ s.playerX - s.offsetX ≤ 11 ∧
  2 ≤ s.playerY - s.offsetY ∧ s.playerY - s.offsetY ≤ 6

instance (s : ScriptJs.State) : Decidable (ScriptJs.Window s) := by
  unfold ScriptJs.Window; infer_instance

/-! ## Theorems -/

/-- A single clamped move lands inside the grid whenever the grid is
nonempty, whatever the previous position and delta. -/
theorem clamped_move_inBounds (w h : ℤ) (hw : 1 ≤ w) (hh : 1 ≤ h)
    (p d : ℤ × ℤ) : Clamped.InBounds w h (Clamped.move w h p d) := by
  unfold Clamped.InBounds Clamped.move
  refine ⟨le_max_left _ _, max_le (by omega) (min_le_left _ _),
    le_max_left _ _, max_le (by omega) (min_le_left _ _)⟩

/-- Any sequence of clamped moves from an in-bounds start stays in
bounds. -/
theorem clamped_run_inBounds (w h : ℤ) (hw : 1 ≤ w) (hh : 1 ≤ h)
    (start : ℤ × ℤ) (hs : Clamped.InBounds w h start) (moves : List (ℤ × ℤ)) :
    Clamped.InBounds w h (Clamped.run w h start moves) := by
  have H : ∀ (l : List (ℤ × ℤ)) (q : ℤ × ℤ), Clamped.InBounds w h q →
      Clamped.InBounds w h (l.foldl (Clamped.move w h) q) := by
    intro l
    induction l with
    | nil => intro q hq; exact hq
    | cons e es ih =>
      intro q _
      exact ih _ (clamped_move_inBounds w h hw hh q e)
  exact H moves start hs

/-- C1 (as stated, refuted): in the DOM-grid variant (script.js) the player
leaves the 15 x 9 grid after eight presses of the `left` button from the
initial position (7, 4): its x coordinate becomes -1, because `move` never
clamps the player coordinates. -/
theorem c1_counterexample :
    ¬ Clamped.InBounds ScriptJs.mapWidth ScriptJs.mapHeight
      ((ScriptJs.run (List.replicate 8 ScriptJs.Event.left)).playerX,
       (ScriptJs.run (List.replicate 8 ScriptJs.Event.left)).playerY) := by
  decide

set_option maxRecDepth 10000 in
/-- C1 (amended): in every variant whose move operation clamps — the
1000-grid component (start (500, 500)), the 500-grid components, part_001
and LandingPageMap.jsx (start (250, 250)), part_002 (80 x 60, start
(40, 30)) and the 50 x 50 component (start (25, 25)) — the player stays
within the variant's grid bounds after any sequence of moves; the script.js
and part_003 variants do not clamp, e.g. 251 presses of `w` in part_003
drive the player's y coordinate to -2. -/
theorem c1_bounds :
    (∀ moves, Clamped.InBounds 1000 1000 (Clamped.run 1000 1000 (500, 500) moves))
    ∧ (∀ moves, Clamped.InBounds 500 500 (Clamped.run 500 500 (250, 250) moves))
    ∧ (∀ moves, Clamped.InBounds 80 60 (Clamped.run 80 60 (40, 30) moves))
    ∧ (∀ moves, Clamped.InBounds 50 50 (Clamped.run 50 50 (25, 25) moves))
    ∧ (Part003.run (List.replicate 251 Part003.Key.w)).playerY < 0 := by
  refine ⟨fun moves => ?_, fun moves => ?_, fun moves => ?_, fun moves => ?_, by decide⟩
  · exact clamped_run_inBounds 1000 1000 (by norm_num) (by norm_num) _ (by decide) moves
  · exact clamped_run_inBounds 500 500 (by norm_num) (by norm_num) _ (by decide) moves
  · exact clamped_run_inBounds 80 60 (by norm_num) (by norm_num) _ (by decide) moves
  · exact clamped_run_inBounds 50 50 (by norm_num) (by norm_num) _ (by decide) moves

/-- One button press of script.js keeps the player inside the edge-shift
window [3, 11] x [2, 6] relative to the offset. -/
theorem script_step_window (s : ScriptJs.State) (e : ScriptJs.Event)
    (h : ScriptJs.Window s) : ScriptJs.Window (ScriptJs.step s e) := by
  unfold ScriptJs.Window at h ⊢
  cases e <;>
    (unfold ScriptJs.step ScriptJs.eventDelta ScriptJs.move
     dsimp only
     split_ifs <;> omega)

/-- C9: in the DOM-grid variant, after every sequence of the four bound
moves from the initial state player (7, 4), offset (0, 0), the player's
viewport-relative position stays inside the edge-shift window
3 <= px - ox <= 11 and 2 <= py - oy <= 6, hence inside the rendered
15 x 9 viewport. -/
theorem c9_script_window (evts : List ScriptJs.Event) :
    ScriptJs.Window (ScriptJs.run evts) ∧
    Clamped.InBounds ScriptJs.mapWidth ScriptJs.mapHeight
      ((ScriptJs.run evts).playerX - (ScriptJs.run evts).offsetX,
       (ScriptJs.run evts).playerY - (ScriptJs.run evts).offsetY) := by
  have H : ∀ (l : List ScriptJs.Event) (s : ScriptJs.State), ScriptJs.Window s →
      ScriptJs.Window (l.foldl ScriptJs.step s) := by
    intro l
    induction l with
    | nil => intro s hs; exact hs
    | cons e es ih => intro s hs; exact ih _ (script_step_window s e hs)
  have hw : ScriptJs.Window (ScriptJs.run evts) := H evts ScriptJs.init (by decide)
  refine ⟨hw, ?_⟩
  obtain ⟨h1, h2, h3, h4⟩ := hw
  unfold Clamped.InBounds ScriptJs.mapWidth ScriptJs.mapHeight
  constructor
  · omega
  · exact ⟨by omega, by omega, by omega⟩

/-- The truncating remainder by five has absolute value at most four. -/
theorem tmod_five_natAbs_lt (a : ℤ) : (a.tmod 5).natAbs < 5 := by
  rcases a with m | m
  · show (Int.ofNat (m % 5)).natAbs < 5
    exact Nat.mod_lt m (by norm_num)
  · show (-Int.ofNat ((m + 1) % 5)).natAbs < 5
    rw [Int.natAbs_neg]
    exact Nat.mod_lt (m + 1) (by norm_num)

/-- C10: `getRegion` is total over all integer coordinates — the index
`Math.abs((x * 92821 + y * 1237) % 5)` is always in [0, 4], so the lookup
yields one of the five region names and `regionColors` is defined on the
result. -/
theorem c10_getRegion_total (x y : ℤ) :
    ((x * 92821 + y * 1237).tmod 5).natAbs ≤ 4 ∧
    ∃ s, ScriptJs.getRegion x y = some s ∧ s ∈ ScriptJs.regionNames ∧
      (ScriptJs.regionColors.lookup s).isSome := by
  have h5 := tmod_five_natAbs_lt (x * 92821 + y * 1237)
  refine ⟨by omega, ?_⟩
  unfold ScriptJs.getRegion
  set n := ((x * 92821 + y * 1237).tmod 5).natAbs with hn
  interval_cases n
  · exact ⟨"fire", by decide, by decide, by decide⟩
  · exact ⟨"water", by decide, by decide, by decide⟩
  · exact ⟨"wind", by decide, by decide, by decide⟩
  · exact ⟨"lightning", by decide, by decide, by decide⟩
  · exact ⟨"earth", by decide, by decide, by decide⟩

/-- The clamping chain of `drawAll` produces an origin inside the image
whenever the source rectangle is no larger than the image. -/
theorem clampSrc_bounds (x w imgW : ℚ) (h : w ≤ imgW) :
    0 ≤ WorldMap.clampSrc x w imgW ∧ WorldMap.clampSrc x w imgW + w ≤ imgW := by
  have hgoal : WorldMap.clampSrc x w imgW =
      (if (if x < 0 then 0 else x) + w > imgW then max 0 (imgW - w)
       else if x < 0 then 0 else x) := rfl
  rw [hgoal]
  set s1 : ℚ := if x < 0 then 0 else x with hs1def
  have hs1 : 0 ≤ s1 := by
    rw [hs1def]
    split_ifs with hx
    · exact le_refl 0
    · exact not_lt.mp hx
  by_cases h2 : s1 + w > imgW
  · rw [if_pos h2]
    refine ⟨le_max_left _ _, ?_⟩
    rw [max_eq_right (by linarith : (0 : ℚ) ≤ imgW - w)]
    linarith
  · rw [if_neg h2]
    exact ⟨hs1, not_lt.mp h2⟩

/-- C2: in the image-sampled viewport components, for any player
coordinate, viewport size and zoom, provided the source rectangle fits in
the image (srcW ≤ img.width and srcH ≤ img.height), the clamped source
origin computed by `drawAll` satisfies 0 ≤ srcX, srcX + srcW ≤ img.width,
0 ≤ srcY and srcY + srcH ≤ img.height, so `drawImage` never reads outside
the image.  The y axis uses the same formulas with the viewport height and
image height. -/
theorem c2_src_rect_clamped (px py vw vh z imgW imgH : ℚ)
    (hW : WorldMap.srcW vw z imgW ≤ imgW)
    (hH : WorldMap.srcW vh z imgH ≤ imgH) :
    0 ≤ WorldMap.srcX px vw z imgW ∧
    WorldMap.srcX px vw z imgW + WorldMap.srcW vw z imgW ≤ imgW ∧
    0 ≤ WorldMap.srcX py vh z imgH ∧
    WorldMap.srcX py vh z imgH + WorldMap.srcW vh z imgH ≤ imgH := by
  obtain ⟨a1, a2⟩ := clampSrc_bounds (WorldMap.srcRaw px vw z imgW) _ _ hW
  obtain ⟨b1, b2⟩ := clampSrc_bounds (WorldMap.srcRaw py vh z imgH) _ _ hH
  exact ⟨a1, a2, b1, b2⟩

/-- Witness for C2 at a 3000 x 2000 image, a 1200 x 800 viewport, zoom 1
and the initial player tile (250, 250). -/
theorem c2_src_rect_clamped_witness :
    (WorldMap.srcW 1200 1 3000 ≤ 3000 ∧ WorldMap.srcW 800 1 2000 ≤ 2000) ∧
    (0 ≤ WorldMap.srcX 250 1200 1 3000 ∧
     WorldMap.srcX 250 1200 1 3000 + WorldMap.srcW 1200 1 3000 ≤ 3000 ∧
     0 ≤ WorldMap.srcX 250 800 1 2000 ∧
     WorldMap.srcX 250 800 1 2000 + WorldMap.srcW 800 1 2000 ≤ 2000) :=
  ⟨⟨by norm_num [WorldMap.srcW, WorldMap.pxPerTile, WorldMap.BASE_TILE_PX,
      WorldMap.GRID_SIZE],
    by norm_num [WorldMap.srcW, WorldMap.pxPerTile, WorldMap.BASE_TILE_PX,
      WorldMap.GRID_SIZE]⟩,
   c2_src_rect_clamped 250 250 1200 800 1 3000 2000
     (by norm_num [WorldMap.srcW, WorldMap.pxPerTile, WorldMap.BASE_TILE_PX,
       WorldMap.GRID_SIZE])
     (by norm_num [WorldMap.srcW, WorldMap.pxPerTile, WorldMap.BASE_TILE_PX,
       WorldMap.GRID_SIZE])⟩

/-- C5: each `img.onerror` handler only logs the failure: the component
state (loaded flag, player, zoom) is returned unchanged and the emitted
browser effects are exactly one console.error — in particular no new image
load is requested. -/
theorem c5_onerror_logs_only (s : WorldMap.LoadState) :
    (WorldMap.imgOnError1000 s).1 = s ∧
    (WorldMap.imgOnError1000 s).2 =
      [WorldMap.BrowserAction.consoleError "Failed to load image"] ∧
    (WorldMap.imgOnErrorHud s).1 = s ∧
    (WorldMap.imgOnErrorHud s).2 =
      [WorldMap.BrowserAction.consoleError "image load failed"] ∧
    (WorldMap.imgOnErrorHold s).1 = s ∧
    (WorldMap.imgOnErrorHold s).2 =
      [WorldMap.BrowserAction.consoleError "Failed to load map image:"] :=
  ⟨rfl, rfl, rfl, rfl, rfl, rfl⟩

/-- C7 (as stated, refuted): no operation of the Telegram-hosted DOM-grid
variant sends a payload to the bridge or closes the view — neither the
startup code nor any of the four button handlers. -/
theorem c7_counterexample :
    ScriptJs.initBridgeCalls.any ScriptJs.isSendOrClose = false ∧
    (ScriptJs.eventBridgeCalls ScriptJs.Event.up).any ScriptJs.isSendOrClose
      = false ∧
    (ScriptJs.eventBridgeCalls ScriptJs.Event.down).any ScriptJs.isSendOrClose
      = false ∧
    (ScriptJs.eventBridgeCalls ScriptJs.Event.left).any ScriptJs.isSendOrClose
      = false ∧
    (ScriptJs.eventBridgeCalls ScriptJs.Event.right).any ScriptJs.isSendOrClose
      = false := by
  decide

/-- C7 (amended): the only call the DOM-grid variant makes to the host
chat-application bridge is `tg.expand()` at startup; the button handlers
perform no bridge calls at all. -/
theorem c7_bridge_calls :
    ScriptJs.initBridgeCalls = [ScriptJs.TgCall.expand] ∧
    ∀ e, ScriptJs.eventBridgeCalls e = [] :=
  ⟨rfl, fun _ => rfl⟩

/-- The early-return loop of `findRegionAt` computes the first match, i.e.
`List.find?` (which models `Array.prototype.find` in `updateRegion`). -/
theorem findLoop_eq_find (x y : ℚ) (rs : List WorldMap.Region) :
    WorldMap.findLoop x y rs =
      rs.find? (fun r => WorldMap.pointInPoly x y r.poly) := by
  induction rs with
  | nil => rfl
  | cons r rest ih =>
    by_cases hp : WorldMap.pointInPoly x y r.poly
    · rw [WorldMap.findLoop, if_pos hp]
      simp [List.find?, hp]
    · have hp' : WorldMap.pointInPoly x y r.poly = false := by simpa using hp
      rw [WorldMap.findLoop, if_neg hp]
      simp [List.find?, hp', ih]

/-- No region in the REGIONS list is named like either fallback value. -/
theorem region_name_ne_fallback (r : WorldMap.Region)
    (hr : r ∈ WorldMap.REGIONS) :
    r.name ≠ "Unknown Region" ∧ r.name ≠ "" := by
  fin_cases hr <;> exact ⟨by decide, by decide⟩

/-- C4: the displayed region name is ray-casting point-in-polygon lookup
over the fixed REGIONS list: `updateRegion` (resp. `updateRegionName`)
returns its fallback "Unknown Region" (resp. the empty string) exactly when
no region polygon contains the point, and when the first containing region
exists both return that region's name. -/
theorem c4_region_lookup (px py : ℚ) :
    (WorldMap.updateRegion (px, py) = "Unknown Region" ↔
      ∀ r ∈ WorldMap.REGIONS, WorldMap.pointInPoly px py r.poly = false) ∧
    (WorldMap.updateRegionName (px, py) = "" ↔
      ∀ r ∈ WorldMap.REGIONS, WorldMap.pointInPoly px py r.poly = false) ∧
    (∀ r, WorldMap.REGIONS.find?
        (fun r => WorldMap.pointInPoly px py r.poly) = some r →
      WorldMap.updateRegion (px, py) = r.name ∧
      WorldMap.updateRegionName (px, py) = r.name ∧
      WorldMap.pointInPoly px py r.poly = true) := by
  have hname : WorldMap.updateRegionName (px, py) =
      match WorldMap.REGIONS.find? (fun r => WorldMap.pointInPoly px py r.poly)
        with
      | some r => r.name
      | none => "" := by
    unfold WorldMap.updateRegionName WorldMap.findRegionAt
    rw [findLoop_eq_find]
  rcases hfind : WorldMap.REGIONS.find?
      (fun r => WorldMap.pointInPoly px py r.poly) with _ | r
  · have hall : ∀ r ∈ WorldMap.REGIONS,
        WorldMap.pointInPoly px py r.poly = false := by
      intro r hr
      have := List.find?_eq_none.mp hfind r hr
      simpa using this
    refine ⟨?_, ?_, ?_⟩
    · constructor
      · intro _; exact hall
      · intro _
        unfold WorldMap.updateRegion
        rw [hfind]
    · constructor
      · intro _; exact hall
      · intro _
        rw [hname, hfind]
    · intro r hr
      rw [hfind] at hr
      cases hr
  · have hmem : r ∈ WorldMap.REGIONS := List.mem_of_find?_eq_some hfind
    have hp : WorldMap.pointInPoly px py r.poly = true := by
      simpa using List.find?_some hfind
    have hur : WorldMap.updateRegion (px, py) = r.name := by
      unfold WorldMap.updateRegion
      rw [hfind]
    have hurn : WorldMap.updateRegionName (px, py) = r.name := by
      rw [hname, hfind]
    refine ⟨?_, ?_, ?_⟩
    · constructor
      · intro hu
        exact absurd (hur ▸ hu) (region_name_ne_fallback r hmem).1
      · intro hall
        rw [hall r hmem] at hp
        cases hp
    · constructor
      · intro hu
        exact absurd (hurn ▸ hu) (region_name_ne_fallback r hmem).2
      · intro hall
        rw [hall r hmem] at hp
        cases hp
    · intro r' hr'
      rw [hfind] at hr'
      cases hr'
      exact ⟨hur, hurn, hp⟩

/-- Witness for C4: the origin tile lies in no region polygon, while tile
(250, 300) lies in the Land of Fire polygon, the first match. -/
theorem c4_region_lookup_witness :
    WorldMap.updateRegion (0, 0) = "Unknown Region" ∧
    WorldMap.updateRegionName (0, 0) = "" ∧
    WorldMap.updateRegion (250, 300) = "Land of Fire" ∧
    WorldMap.updateRegionName (250, 300) = "Land of Fire" := by
  have hnone : ∀ r ∈ WorldMap.REGIONS,
      WorldMap.pointInPoly 0 0 r.poly = false := by
    intro r hr
    fin_cases hr <;>
      norm_num [WorldMap.pointInPoly, WorldMap.pipEdge, WorldMap.landFire,
        WorldMap.landWind, WorldMap.landWater, WorldMap.landEarth,
        WorldMap.landLightning, WorldMap.landSnow, List.range, List.range.loop]
  have hfire : WorldMap.REGIONS.find?
      (fun r => WorldMap.pointInPoly 250 300 r.poly) =
        some WorldMap.landFire := by
    norm_num [WorldMap.REGIONS, List.find?, WorldMap.pointInPoly,
      WorldMap.pipEdge, WorldMap.landFire, List.range, List.range.loop]
  exact ⟨(c4_region_lookup 0 0).1.mpr hnone,
    (c4_region_lookup 0 0).2.1.mpr hnone,
    ((c4_region_lookup 250 300).2.2 WorldMap.landFire hfire).1,
    ((c4_region_lookup 250 300).2.2 WorldMap.landFire hfire).2.1⟩

/-- A LandingPageMap keyboard event never writes the tile grid. -/
theorem lp_step_mapData (s : LandingPage.State) (e : LandingPage.Event) :
    (LandingPage.step s e).mapData = s.mapData := by
  cases e <;> rfl

set_option maxRecDepth 10000 in
/-- C6: in the variants with a pre-generated tile grid, move and zoom leave
the grid unchanged — after any sequence of keyboard events the
LandingPageMap grid is still the one generated at initialization, and after
any sequence of `movePlayer` calls the 50x50 grid is still the one generated
at initialization (only player and zoom change). -/
theorem c6_grid_constant :
    (∀ (pl : PageLoad) (evts : List LandingPage.Event),
      (LandingPage.run pl evts).mapData =
        LandingPage.generateMap LandingPage.MAP_SIZE pl) ∧
    (∀ (sinF cosF : ℚ → ℚ) (moves : List (ℤ × ℤ)),
      (Page50.run sinF cosF moves).mapData = Page50.generateMap sinF cosF) := by
  constructor
  · intro pl evts
    have H : ∀ (l : List LandingPage.Event) (s : LandingPage.State),
        (l.foldl LandingPage.step s).mapData = s.mapData := by
      intro l
      induction l with
      | nil => intro s; rfl
      | cons e es ih =>
        intro s
        rw [List.foldl_cons, ih, lp_step_mapData]
    have h2 : (LandingPage.init pl).mapData =
        LandingPage.generateMap LandingPage.MAP_SIZE pl := by
      simp only [LandingPage.init]
    rw [← h2]
    exact H evts (LandingPage.init pl)
  · intro sinF cosF moves
    have H : ∀ (l : List (ℤ × ℤ)) (s : Page50.State),
        (l.foldl (fun s d => Page50.movePlayer d s) s).mapData = s.mapData := by
      intro l
      induction l with
      | nil => intro s; rfl
      | cons d ds ih =>
        intro s
        rw [List.foldl_cons, ih]
        rfl
    have h2 : (Page50.init sinF cosF).mapData = Page50.generateMap sinF cosF := by
      simp only [Page50.init]
    rw [← h2]
    exact H moves (Page50.init sinF cosF)

/-- The two-decimal rounding of `toFixed(2)` moves a rational by at most
1/200. -/
theorem toFixed2_bounds (q : ℚ) :
    q - 1 / 200 ≤ WorldMap.toFixed2 q ∧ WorldMap.toFixed2 q ≤ q + 1 / 200 := by
  have h := abs_sub_round (q * 100)
  rw [abs_le] at h
  unfold WorldMap.toFixed2
  constructor
  · rw [le_div_iff₀ (by norm_num : (0 : ℚ) < 100)]
    linarith [h.2]
  · rw [div_le_iff₀ (by norm_num : (0 : ℚ) < 100)]
    linarith [h.1]

/-- Every zoom-changing operation maps a zoom inside
[MIN_ZOOM, MAX_ZOOM] back into [MIN_ZOOM, MAX_ZOOM]. -/
theorem zoomStep_range (z : ℚ) (hz1 : WorldMap.MIN_ZOOM ≤ z)
    (hz2 : z ≤ WorldMap.MAX_ZOOM) (e : WorldMap.ZoomEvent) :
    WorldMap.MIN_ZOOM ≤ WorldMap.zoomStep z e ∧
    WorldMap.zoomStep z e ≤ WorldMap.MAX_ZOOM := by
  simp only [WorldMap.MIN_ZOOM, WorldMap.MAX_ZOOM] at hz1 hz2
  cases e with
  | keyPlus =>
    obtain ⟨h1, h2⟩ := toFixed2_bounds (z + 0.25)
    simp only [WorldMap.zoomStep, WorldMap.MIN_ZOOM, WorldMap.MAX_ZOOM]
    exact ⟨le_min (by norm_num) (by linarith), min_le_left _ _⟩
  | btnPlus =>
    obtain ⟨h1, h2⟩ := toFixed2_bounds (z + 0.25)
    simp only [WorldMap.zoomStep, WorldMap.MIN_ZOOM, WorldMap.MAX_ZOOM]
    exact ⟨le_min (by norm_num) (by linarith), min_le_left _ _⟩
  | keyMinus =>
    obtain ⟨h1, h2⟩ := toFixed2_bounds (z - 0.25)
    simp only [WorldMap.zoomStep, WorldMap.MIN_ZOOM, WorldMap.MAX_ZOOM]
    exact ⟨le_max_left _ _, max_le (by norm_num) (by linarith)⟩
  | btnMinus =>
    obtain ⟨h1, h2⟩ := toFixed2_bounds (z - 0.25)
    simp only [WorldMap.zoomStep, WorldMap.MIN_ZOOM, WorldMap.MAX_ZOOM]
    exact ⟨le_max_left _ _, max_le (by norm_num) (by linarith)⟩
  | wheel d =>
    simp only [WorldMap.zoomStep, WorldMap.MIN_ZOOM, WorldMap.MAX_ZOOM]
    exact ⟨le_max_left _ _, max_le (by norm_num) (min_le_left _ _)⟩

/-- C8: starting from zoom = 1, after any sequence of keyboard `+`/`-`
presses, wheel events and zoom-button clicks in the 500-grid components,
the zoom stays within [MIN_ZOOM, MAX_ZOOM] = [0.3, 4]. -/
theorem c8_zoom_range (evts : List WorldMap.ZoomEvent) :
    WorldMap.MIN_ZOOM ≤ WorldMap.zoomRun evts ∧
    WorldMap.zoomRun evts ≤ WorldMap.MAX_ZOOM := by
  have H : ∀ (l : List WorldMap.ZoomEvent) (z : ℚ),
      WorldMap.MIN_ZOOM ≤ z → z ≤ WorldMap.MAX_ZOOM →
      WorldMap.MIN_ZOOM ≤ l.foldl WorldMap.zoomStep z ∧
      l.foldl WorldMap.zoomStep z ≤ WorldMap.MAX_ZOOM := by
    intro l
    induction l with
    | nil => intro z h1 h2; exact ⟨h1, h2⟩
    | cons e es ih =>
      intro z h1 h2
      obtain ⟨g1, g2⟩ := zoomStep_range z h1 h2 e
      exact ih _ g1 g2
  refine H evts 1 ?_ ?_ <;> norm_num [WorldMap.MIN_ZOOM, WorldMap.MAX_ZOOM]

end WebappNaruto
